import Mathlib

/-!
Verification development for `alea/submitters/htcondor.py` (class
`SubmitterHTCondor`), the HTCondor/Pegasus workflow submitter of the
repository.  The Python module is shallowly embedded below: pure helpers
become Lean functions, the mutating workflow-generation loop becomes an
explicit state-passing fold over the ticket sequence, and fallible
operations return a state together with an optional error message
(mirroring a raised exception).
-/

namespace AleaHTCondor

/-! ## String helpers

Python's `os.path.basename`, `str.replace` and `os.path.join` (POSIX
behaviour), modelled over the character list of a string so that every
definition reduces in the kernel. -/

/-- Embedding of `os.path.basename` (POSIX): the suffix after the last
`/`, computed by a fold that resets on every slash. -/
def basename (p : String) : String :=
  String.mk (p.data.foldl (fun acc c => if c = '/' then [] else acc ++ [c]) [])

/-- Fuel-indexed worker for `pyReplace`; the fuel starts at the length of
the subject string, which suffices because each step consumes at least one
character. -/
def pyReplaceAux (pat rep : List Char) : Nat → List Char → List Char
  | _, [] => []
  | 0, l => l
  | fuel + 1, c :: rest =>
    if pat.isPrefixOf (c :: rest) && !pat.isEmpty then
      rep ++ pyReplaceAux pat rep fuel ((c :: rest).drop pat.length)
    else
      c :: pyReplaceAux pat rep fuel rest

/-- Embedding of Python `str.replace` for a non-empty pattern: replace
every non-overlapping occurrence, scanning left to right.  (The code only
uses it with the pattern `".yaml"`.) -/
def pyReplace (s pat rep : String) : String :=
  String.mk (pyReplaceAux pat.data rep.data s.data.length s.data)

/-- Embedding of `os.path.join` for two components (POSIX): an absolute
second component wins; otherwise the components are glued with exactly one
separator. -/
def osPathJoin (a b : String) : String :=
  if b.data.head? = some '/' then b
  else if a.data = [] then b
  else if a.data.getLast? = some '/' then a ++ b
  else a ++ "/" ++ b

/-- Append of lists of results of a list-valued function; used for the
declared outputs of a cohort's member jobs (self-contained stand-in for
`List.flatMap`). -/
def concatMap (f : α → List β) : List α → List β
  | [] => []
  | a :: l => f a ++ concatMap f l

/-! ## Submitter configuration

The fields of `SubmitterHTCondor` that the workflow-generation code reads
(set in `__init__` from `htcondor_configurations` and by the base class).
`modified_statistical_model_config` is the name computed by
`_modify_yaml`. -/

structure Config where
  /-- Base-class setting checked at the top of `_generate_workflow`. -/
  combine_n_jobs : Nat
  /-- Cohort capacity for combine jobs (default 100). -/
  combine_n_outputs : Nat
  request_cpus : Nat
  request_memory : Nat
  request_disk : Nat
  combine_disk : Nat
  workflow_id : String
  work_dir : String
  generated_dir : String
  config_file_path : String
  statistical_model_config : String
  top_dir : String
  debug : Bool

/-- Embedding of the `template_tarball` property:
`os.path.join(self.generated_dir, "templates.tar.gz")`. -/
def templateTarball (cfg : Config) : String :=
  osPathJoin cfg.generated_dir "templates.tar.gz"

/-- Embedding of the name computed by `_modify_yaml`: the base name of the
statistical model config with `".yaml"` replaced by `"_modified.yaml"`,
placed under `generated_dir`. -/
def modifiedStatisticalModelConfig (cfg : Config) : String :=
  osPathJoin cfg.generated_dir
    (pyReplace (basename cfg.statistical_model_config) ".yaml" "_modified.yaml")

/-- Embedding of the `runs_dir` attribute:
`os.path.join(self.work_dir, "runs", self.workflow_id)`. -/
def runsDir (cfg : Config) : String :=
  osPathJoin (osPathJoin cfg.work_dir "runs") cfg.workflow_id

/-- Embedding of the `requirements` property: the minimal condor
requirements expression, with the MWT2 pin appended in debug mode. -/
def requirementsString (debug : Bool) : String :=
  "HAS_SINGULARITY && HAS_CVMFS_xenon_opensciencegrid_org && PORT_2880 && PORT_8000 && PORT_27017 && (Microarch >= \"x86_64-v3\")"
    ++ (if debug then " && GLIDEIN_ResourceName == \"MWT2\" " else "")

/-! ## Ticket argument mappings

A ticket's parsed argument dictionary (`args_dict` in
`_reorganize_script`).  The fields the code reads are explicit; every
other key of the Python dict is carried unchanged in `other`, and likewise
inside the nested `statistical_model_args` mapping.  A key that may be
absent (`limit_threshold`) is an `Option`. -/

structure StatModelArgs where
  template_path : String
  limit_threshold : Option String
  other : List (String × String)
deriving DecidableEq

structure ArgsDict where
  toydata_mode : String
  toydata_filename : String
  output_filename : String
  statistical_model_config : String
  statistical_model_args : StatModelArgs
  other : List (String × String)
deriving DecidableEq

/-- Embedding of `_correct_paths_args_dict`: `template_path` becomes the
fixed relative directory `"templates/"`; `limit_threshold` (when present),
`toydata_filename` and `output_filename` are reduced to base names; and
`statistical_model_config` is overwritten with the base name of
`self.modified_statistical_model_config` (not of the ticket's own value).
All other entries pass through. -/
def correct_paths_args_dict (cfg : Config) (a : ArgsDict) : ArgsDict :=
  { a with
    statistical_model_args :=
      { a.statistical_model_args with
        template_path := "templates/"
        limit_threshold := a.statistical_model_args.limit_threshold.map basename }
    toydata_filename := basename a.toydata_filename
    output_filename := basename a.output_filename
    statistical_model_config := basename (modifiedStatisticalModelConfig cfg) }

/-- Embedding of the membership test
`args_dict["toydata_mode"] in ["generate_and_store", "generate"]`. -/
def valid_toydata_mode (a : ArgsDict) : Bool :=
  a.toydata_mode == "generate_and_store" || a.toydata_mode == "generate"

/-! ## Jobs

A Pegasus `Job` as configured by this module: name, the condor profiles
set by `_initialize_job` (`request_cpus`, and the retry-escalating
`request_memory` / `request_disk` expressions, recorded by their base
values), the local-site selector, the `requirements` profile, and the
declared inputs and outputs (each output paired with its `stage_out`
flag).  The executable argument vector (`add_args`) is not modelled; no
claim refers to it. -/

structure Job where
  name : String
  cores : Nat
  pinnedLocal : Bool
  memoryBase : Option Nat
  diskBase : Option Nat
  requirements : Option String
  inputs : List String
  outputs : List (String × Bool)
deriving DecidableEq

/-- Embedding of `_initialize_job`: sets `request_cpus`; a job meant for
the submit node is pinned to the `local` site and gets no other attribute;
otherwise the retry-escalating memory and disk request expressions are
attached (recorded by their base values, with semantics
`dagRetryRequest`). -/
def initialize_job (name : String) (run_on_submit_node : Bool)
    (cores memory disk : Nat) : Job :=
  let job : Job :=
    { name := name, cores := cores, pinnedLocal := false,
      memoryBase := none, diskBase := none, requirements := none,
      inputs := [], outputs := [] }
  if run_on_submit_node then
    { job with pinnedLocal := true }
  else
    { job with memoryBase := some memory, diskBase := some disk }

/-- Semantics of the condor expression
`ifthenelse(isundefined(DAGNodeRetry) || DAGNodeRetry == 0, base,
(DAGNodeRetry + 1) * base)` built by `_initialize_job`, as a function of
the scheduler retry counter (an undefined `DAGNodeRetry` is attempt 0). -/
def dagRetryRequest (base attempt : Nat) : Nat :=
  if attempt = 0 then base else (attempt + 1) * base

/-! ## Workflow generation

The body of `_generate_workflow` is a fold over the ticket sequence.  The
mutable attributes it touches (`self.wf`'s job list, `self.rc`,
`self.added_limit_threshold`, `self.f_limit_threshold`,
`self.limit_threshold`, the loop-local `combine_i` and `new_to_combine`)
become fields of an explicit state.  Compute jobs and combine jobs are
kept in separate lists because the code keeps mutating the current
combine job (via `add_inputs`) after it has been added to the workflow;
the workflow graph's job set is their union. -/

/-- Replica catalog entry: `(site, lfn, pfn)` as passed to
`rc.add_replica`. -/
abbrev RCEntry := String × String × String

/-- Embedding of `_generate_rc`: the six replicas registered before job
construction (template tarball, running configuration, modified
statistical model config, the two wrapper scripts, and
`alea_run_toymc`). -/
def generate_rc (cfg : Config) : List RCEntry :=
  [ ("local", basename (templateTarball cfg),
      "file://" ++ templateTarball cfg),
    ("local", basename cfg.config_file_path,
      "file://" ++ cfg.config_file_path),
    ("local", basename (modifiedStatisticalModelConfig cfg),
      "file://" ++ modifiedStatisticalModelConfig cfg),
    ("local", "run_toymc_wrapper.sh",
      "file://" ++ osPathJoin cfg.top_dir "alea/submitters/run_toymc_wrapper.sh"),
    ("local", "alea_run_toymc",
      "file://" ++ osPathJoin cfg.top_dir "bin/alea_run_toymc"),
    ("local", "combine.sh",
      "file://" ++ osPathJoin cfg.top_dir "alea/submitters/combine.sh") ]

/-- The six logical file names every compute job declares as inputs
(`job.add_inputs(self.f_template_tarball, ...)`), in call order. -/
def standardInputs (cfg : Config) : List String :=
  [ basename (templateTarball cfg),
    basename cfg.config_file_path,
    basename (modifiedStatisticalModelConfig cfg),
    "run_toymc_wrapper.sh",
    "alea_run_toymc",
    "combine.sh" ]

/-- Embedding of `_add_combine_job` (without the `wf.add_jobs` side
effect, which the caller performs by appending the result to the combine
job list): a `combine` job with doubled memory, the combine disk request,
the requirements profile, and the single staged-out archive output named
from the workflow id and the cohort index. -/
def add_combine_job (cfg : Config) (combine_i : Nat) : Job :=
  let j := initialize_job "combine" false cfg.request_cpus
    (cfg.request_memory * 2) cfg.combine_disk
  { j with
    requirements := some (requirementsString cfg.debug)
    outputs := [(cfg.workflow_id ++ "-" ++ toString combine_i ++
      "-combined_output.tar.gz", true)] }

/-- The output file names a ticket contributes to its cohort's combine
job: the (path-corrected) output file, plus the toydata file exactly when
the ticket's mode is `generate_and_store`. -/
def ticketOutputFiles (cfg : Config) (a : ArgsDict) : List String :=
  let args := correct_paths_args_dict cfg a
  [args.output_filename] ++
    (if args.toydata_mode = "generate_and_store" then [args.toydata_filename]
     else [])

/-- The compute job built for one ticket inside the loop of
`_generate_workflow`: base resource requests, the requirements profile,
the six standard inputs plus (when the one-shot flag is set) the
registered limit-threshold file `ltFile`, and the declared outputs (none
staged out; they flow to the combine job). -/
def mkComputeJob (cfg : Config) (ltFile : Option String) (a : ArgsDict) : Job :=
  let args := correct_paths_args_dict cfg a
  let j := initialize_job "run_toymc_wrapper" false cfg.request_cpus
    cfg.request_memory cfg.request_disk
  { j with
    requirements := some (requirementsString cfg.debug)
    inputs := standardInputs cfg ++
      (match ltFile with
       | some f => [f]
       | none => [])
    outputs := [(args.output_filename, false)] ++
      (if args.toydata_mode = "generate_and_store" then
        [(args.toydata_filename, false)]
       else []) }

/-- State of `_generate_workflow`: the jobs added to the workflow so far
(compute and combine jobs separately), the replica catalog, flags
recording which of the three catalogs have been constructed, the one-shot
limit-threshold registration state, the cohort counter and the
open-a-new-cohort flag, and whether the workflow file was written. -/
@[ext]
structure GenState where
  computeJobs : List Job
  combineJobs : List Job
  rc : List RCEntry
  scBuilt : Bool
  tcBuilt : Bool
  rcBuilt : Bool
  added_limit_threshold : Bool
  f_limit_threshold : Option String
  limit_threshold : Option String
  combine_i : Nat
  new_to_combine : Bool
  wfWritten : Bool
deriving DecidableEq

/-- The state at entry of `_generate_workflow` (before the
`combine_n_jobs` check): nothing constructed, the one-shot flag cleared
(as in `__init__`), cohort counter 0, and a cohort about to open. -/
def initGenState : GenState :=
  { computeJobs := [], combineJobs := [], rc := [],
    scBuilt := false, tcBuilt := false, rcBuilt := false,
    added_limit_threshold := false, f_limit_threshold := none,
    limit_threshold := none,
    combine_i := 0, new_to_combine := true, wfWritten := false }

/-- Replace the last element of a list (the currently open combine job,
which the Python code holds by reference in `combine_job`). -/
def updateLast (f : α → α) : List α → List α
  | [] => []
  | [x] => [f x]
  | x :: xs => x :: updateLast f xs

/-- Embedding of `_add_limit_threshold` together with the assignment
`self.limit_threshold = ...` made just before it in `_reorganize_script`:
record the path, register the file under its base name in the replica
catalog, and set the one-shot flag. -/
def registerLimitThreshold (st : GenState) (v : String) : GenState :=
  { st with
    limit_threshold := some v
    f_limit_threshold := some (basename v)
    rc := st.rc ++ [("local", basename v, "file://" ++ v)]
    added_limit_threshold := true }

/-- First phase of the loop body: `if new_to_combine: combine_job =
self._add_combine_job(combine_i)` — the new combine job is added to the
workflow immediately, before the ticket is examined. -/
def openCohortStep (cfg : Config) (st : GenState) : GenState :=
  if st.new_to_combine then
    { st with combineJobs := st.combineJobs ++ [add_combine_job cfg st.combine_i] }
  else st

/-- Second phase (`_reorganize_script`): register the limit-threshold
file on first reference, guarded by the one-shot flag. -/
def limitThresholdStep (st : GenState) (a : ArgsDict) : GenState :=
  if !st.added_limit_threshold &&
      a.statistical_model_args.limit_threshold.isSome then
    match a.statistical_model_args.limit_threshold with
    | some v => registerLimitThreshold st v
    | none => st
  else st

/-- Third phase: build the ticket's compute job, append it to the
workflow, and declare its outputs as inputs of the currently open combine
job (the last one added). -/
def computeJobStep (cfg : Config) (st : GenState) (a : ArgsDict) : GenState :=
  { st with
    computeJobs := st.computeJobs ++ [mkComputeJob cfg st.f_limit_threshold a]
    combineJobs := updateLast
      (fun cj => { cj with inputs := cj.inputs ++ ticketOutputFiles cfg a })
      st.combineJobs }

/-- Fourth phase: the cohort bookkeeping at the end of the loop body,
driven by `(job_id + 1) % combine_n_outputs == 0`. -/
def counterStep (cfg : Config) (job_id : Nat) (st : GenState) : GenState :=
  if (job_id + 1) % cfg.combine_n_outputs == 0 then
    { st with new_to_combine := true, combine_i := st.combine_i + 1 }
  else
    { st with new_to_combine := false }

/-- One iteration of the loop of `_generate_workflow` for the ticket at
position `job_id`.  The unsupported-mode check (tested on the
path-corrected arguments, which leave `toydata_mode` untouched) raises
after the cohort has possibly been opened and the limit threshold
possibly registered, but before the compute job is built. -/
def processTicket (cfg : Config) (job_id : Nat) (st : GenState)
    (a : ArgsDict) : GenState × Option String :=
  let st1 := openCohortStep cfg st
  let st2 := limitThresholdStep st1 a
  if !valid_toydata_mode (correct_paths_args_dict cfg a) then
    (st2, some "Only generate_and_store toydata mode is supported on OSG.")
  else
    (counterStep cfg job_id (computeJobStep cfg st2 a), none)

/-- The ticket loop of `_generate_workflow`, threading the state; a
raised error aborts the remaining iterations and surfaces the state built
so far. -/
def genJobs (cfg : Config) : Nat → GenState → List ArgsDict →
    GenState × Option String
  | _, st, [] => (st, none)
  | job_id, st, a :: rest =>
    match processTicket cfg job_id st a with
    | (st', some e) => (st', some e)
    | (st', none) => genJobs cfg (job_id + 1) st' rest

/-- Embedding of `_generate_workflow`: the `combine_n_jobs` precondition
is checked before any catalog is constructed; then the three catalogs are
built, the ticket loop runs, and on success the catalogs are attached and
the workflow file is written. -/
def generate_workflow (cfg : Config) (tickets : List ArgsDict) :
    GenState × Option String :=
  if cfg.combine_n_jobs != 1 then
    (initGenState,
      some ("SubmitterHTCondor can not combine jobs but can only combine outputs so please set " ++
        toString cfg.combine_n_jobs ++ " to 1."))
  else
    let st0 := { initGenState with
      scBuilt := true, tcBuilt := true, rcBuilt := true,
      rc := generate_rc cfg }
    match genJobs cfg 0 st0 tickets with
    | (st, some e) => (st, some e)
    | (st, none) => ({ st with wfWritten := true }, none)

/-! ## Submission pipeline

The pre-flight sequence of `submit`, over an environment describing the
facts the code queries from the filesystem (whether the runs directory
exists, whether the X509 proxy validates, whether the template path
exists, and the `(dirpath, filename)` pairs yielded by walking the
template directory).  Each successfully completed step is recorded as an
event, so "aborts before step X" is "the event of X is absent". -/

structure SubmitEnv where
  runs_dir_exists : Bool
  x509_ok : Bool
  template_path_exists : Bool
  template_files : List (String × String)
  tickets : List ArgsDict
deriving DecidableEq

inductive SubmitEvent where
  | validatedProxy
  | madeDirs
  | modifiedYaml
  | validatedTemplatePath
  | checkedFilenameUnique
  | madeTemplateTarball
  | generatedWorkflow
  | plannedAndSubmitted
deriving DecidableEq

/-- Embedding of `_check_filename_unique`'s failure condition: the base
filenames collected across the whole walk of the template directory,
compared for duplicates via `len(all_files) != len(set(all_files))`. -/
def filenameCollision (template_files : List (String × String)) : Bool :=
  let all_files := template_files.map Prod.snd
  all_files.length != all_files.dedup.length

/-- Embedding of `submit`: the existing-runs-directory check comes first;
then proxy validation, directory creation, the yaml rewrite, template
path validation, the filename-uniqueness check, tarball creation,
workflow generation, and planning/submission — each aborting the rest on
failure. -/
def submit (cfg : Config) (env : SubmitEnv) :
    List SubmitEvent × Option String :=
  if env.runs_dir_exists then
    ([], some ("Workflow already exists at " ++ runsDir cfg ++ ". Exiting."))
  else if !env.x509_ok then
    ([], some "Please provide a valid X509_USER_PROXY environment variable.")
  else
    let ev := [SubmitEvent.validatedProxy, SubmitEvent.madeDirs,
      SubmitEvent.modifiedYaml]
    if !env.template_path_exists then
      (ev, some "Path does not exist.")
    else
      let ev := ev ++ [SubmitEvent.validatedTemplatePath]
      if filenameCollision env.template_files then
        (ev, some "All files in the template path must have unique names.")
      else
        let ev := ev ++ [SubmitEvent.checkedFilenameUnique,
          SubmitEvent.madeTemplateTarball]
        match generate_workflow cfg env.tickets with
        | (_, some e) => (ev, some e)
        | (_, none) =>
          (ev ++ [SubmitEvent.generatedWorkflow,
            SubmitEvent.plannedAndSubmitted], none)

/-! ## Closed forms for the generation loop

The loop is characterized by closed-form descriptions of the state after
processing a prefix of the ticket sequence: the limit-threshold
registration is the first referenced value, compute jobs are a map over
the tickets threading that registration, and combine cohorts are the
positional windows of size `combine_n_outputs`. -/

/-- The one-shot registration after seeing one more ticket: the first
referenced `limit_threshold` wins. -/
def updLT (lt0 : Option String) (a : ArgsDict) : Option String :=
  match lt0 with
  | some v => some v
  | none => a.statistical_model_args.limit_threshold

/-- The registered `limit_threshold` path after a list of tickets. -/
def ltAfter (lt0 : Option String) : List ArgsDict → Option String
  | [] => lt0
  | a :: rest => ltAfter (updLT lt0 a) rest

/-- Closed form of the compute-job list: each ticket's job sees the
registration state after its own `_reorganize_script` call. -/
def computeJobsSpec (cfg : Config) : Option String → List ArgsDict → List Job
  | _, [] => []
  | lt0, a :: rest =>
    mkComputeJob cfg ((updLT lt0 a).map basename) a ::
      computeJobsSpec cfg (updLT lt0 a) rest

/-- Ceiling division, `(n + k - 1) / k`. -/
def ceilDiv (n k : Nat) : Nat := (n + k - 1) / k

/-- The tickets of cohort `i`: positions `i * K` through
`min ((i + 1) * K, N) - 1`. -/
def cohortWindow (tickets : List ArgsDict) (K i : Nat) : List ArgsDict :=
  (tickets.drop (i * K)).take K

/-- Closed form of combine job `i`: the freshly added combine job with
the outputs of its cohort's tickets accumulated as inputs. -/
def combineJobSpec (cfg : Config) (tickets : List ArgsDict) (i : Nat) : Job :=
  { add_combine_job cfg i with
    inputs := concatMap (ticketOutputFiles cfg)
      (cohortWindow tickets cfg.combine_n_outputs i) }

/-- The replica-catalog entry contributed by a registered limit
threshold (none when none has been registered). -/
def ltRCEntry : Option String → List RCEntry
  | some v => [("local", basename v, "file://" ++ v)]
  | none => []

/-- The replica-catalog entries appended by one `limitThresholdStep`:
one entry when nothing was registered before and the ticket references a
limit threshold, otherwise none. -/
def newRCEntries : Option String → Option String → List RCEntry
  | none, some v => [("local", basename v, "file://" ++ v)]
  | _, _ => []

/-- Closed form of the loop state after processing the tickets `pre`
(all of supported toydata mode), starting from the state
`_generate_workflow` reaches just after building the catalogs. -/
def specMid (cfg : Config) (pre : List ArgsDict) : GenState :=
  { computeJobs := computeJobsSpec cfg none pre
    combineJobs := (List.range (ceilDiv pre.length cfg.combine_n_outputs)).map
      (combineJobSpec cfg pre)
    rc := generate_rc cfg ++ ltRCEntry (ltAfter none pre)
    scBuilt := true, tcBuilt := true, rcBuilt := true
    added_limit_threshold := (ltAfter none pre).isSome
    f_limit_threshold := (ltAfter none pre).map basename
    limit_threshold := ltAfter none pre
    combine_i := pre.length / cfg.combine_n_outputs
    new_to_combine := pre.length % cfg.combine_n_outputs == 0
    wfWritten := false }

/-- Example configuration used by counterexamples and witnesses. -/
def cfgEx : Config :=
  { combine_n_jobs := 1
    combine_n_outputs := 2
    request_cpus := 1
    request_memory := 2000
    request_disk := 2000000
    combine_disk := 20000000
    workflow_id := "2024-01-01-00-00-00"
    work_dir := "/scratch/user/workflows"
    generated_dir := "/scratch/user/workflows/generated/2024-01-01-00-00-00"
    config_file_path := "/home/user/running.yaml"
    statistical_model_config := "/home/user/conf.yaml"
    top_dir := "/home/user/alea"
    debug := false }

/-- Example ticket argument mapping (no limit threshold). -/
def ticketA : ArgsDict :=
  { toydata_mode := "generate_and_store"
    toydata_filename := "/tmp/data/toyA.h5"
    output_filename := "/tmp/data/outA.h5"
    statistical_model_config := "/home/user/conf.yaml"
    statistical_model_args :=
      { template_path := "/home/user/templates"
        limit_threshold := none
        other := [] }
    other := [("n_mc", "100")] }

/-- Example ticket referencing a limit threshold, of mode `generate`. -/
def ticketB : ArgsDict :=
  { toydata_mode := "generate"
    toydata_filename := "/tmp/data/toyB.h5"
    output_filename := "/tmp/data/outB.h5"
    statistical_model_config := "/home/user/conf.yaml"
    statistical_model_args :=
      { template_path := "/home/user/templates"
        limit_threshold := some "/home/user/thresholds/neyman_thresholds.json"
        other := [] }
    other := [] }

/-- A second limit-threshold-referencing ticket (different file). -/
def ticketB2 : ArgsDict :=
  { ticketB with
    statistical_model_args :=
      { ticketB.statistical_model_args with
        limit_threshold := some "/home/user/thresholds/other_thresholds.json" } }

/-- A third plain ticket. -/
def ticketC : ArgsDict :=
  { ticketA with
    toydata_filename := "/tmp/data/toyC.h5"
    output_filename := "/tmp/data/outC.h5" }

/-- A ticket with an unsupported toydata mode. -/
def ticketBad : ArgsDict :=
  { ticketA with toydata_mode := "pregenerated" }

/-- A configuration violating the combine-jobs precondition. -/
def cfg6 : Config := { cfgEx with combine_n_jobs := 2 }

/-- A submission environment whose template directory holds two files
named `x.h5` in different subdirectories. -/
def envC7 : SubmitEnv :=
  { runs_dir_exists := false
    x509_ok := true
    template_path_exists := true
    template_files :=
      [("/tmp/templates/sub1", "x.h5"), ("/tmp/templates/sub2", "x.h5")]
    tickets := [] }

/-- A submission environment whose run directory already exists. -/
def envC8 : SubmitEnv := { envC7 with runs_dir_exists := true }

/-- Conclusion of claim C1: a successful generation yields one compute
job per ticket, `ceil(N / K)` combine jobs, the inputs of combine job `i`
are exactly the declared outputs of the tickets at positions
`[i * K, min ((i + 1) * K, N))` in arrival order, and each compute job's
declared output names are its ticket's output files. -/
def cohortStructure (cfg : Config) (tickets : List ArgsDict) : Prop :=
  (generate_workflow cfg tickets).2 = none ∧
  (generate_workflow cfg tickets).1.computeJobs.length = tickets.length ∧
  (generate_workflow cfg tickets).1.combineJobs.length =
    ceilDiv tickets.length cfg.combine_n_outputs ∧
  (∀ i : Nat, i < (generate_workflow cfg tickets).1.combineJobs.length →
    ((generate_workflow cfg tickets).1.combineJobs[i]?).map Job.inputs =
      some (concatMap (ticketOutputFiles cfg)
        ((tickets.drop (i * cfg.combine_n_outputs)).take
          cfg.combine_n_outputs))) ∧
  (∀ j : Nat, j < tickets.length →
    ((generate_workflow cfg tickets).1.computeJobs[j]?).map
        (fun job => job.outputs.map Prod.fst) =
      (tickets[j]?).map (ticketOutputFiles cfg))

/-- Conclusion of claim C10: once some ticket has triggered the
registration, the compute job of every later ticket declares the
registered limit-threshold file among its inputs (appended after the six
standard inputs), even when that later ticket itself references none;
compute jobs of tickets before any trigger carry exactly the six standard
inputs. -/
def limitThresholdPropagation (cfg : Config) (tickets : List ArgsDict) : Prop :=
  (generate_workflow cfg tickets).1.computeJobs.length = tickets.length ∧
  (∀ i j : Nat, i < j → j < tickets.length →
    (tickets[i]?).map
        (fun t => t.statistical_model_args.limit_threshold.isSome) =
      some true →
    ∃ v, ltAfter none tickets = some v ∧
      ((generate_workflow cfg tickets).1.computeJobs[j]?).map Job.inputs =
        some (standardInputs cfg ++ [basename v])) ∧
  (∀ j : Nat, j < tickets.length →
    (∀ i : Nat, i ≤ j →
      (tickets[i]?).map
          (fun t => t.statistical_model_args.limit_threshold.isSome) ≠
        some true) →
    ((generate_workflow cfg tickets).1.computeJobs[j]?).map Job.inputs =
      some (standardInputs cfg))

/-! ### Helper lemmas -/

theorem updateLast_append (f : α → α) (l : List α) (x : α) :
    updateLast f (l ++ [x]) = l ++ [f x] := by
  induction l with
  | nil => rfl
  | cons y ys ih =>
    cases ys with
    | nil => rfl
    | cons z zs =>
      simpa [updateLast] using ih

theorem concatMap_append (f : α → List β) (l₁ l₂ : List α) :
    concatMap f (l₁ ++ l₂) = concatMap f l₁ ++ concatMap f l₂ := by
  induction l₁ with
  | nil => rfl
  | cons a l ih => simp [concatMap, ih]

theorem ltAfter_some (v : String) (l : List ArgsDict) :
    ltAfter (some v) l = some v := by
  induction l with
  | nil => rfl
  | cons a rest ih => simpa [ltAfter, updLT] using ih

theorem ltAfter_append (lt0 : Option String) (l₁ l₂ : List ArgsDict) :
    ltAfter lt0 (l₁ ++ l₂) = ltAfter (ltAfter lt0 l₁) l₂ := by
  induction l₁ generalizing lt0 with
  | nil => rfl
  | cons a rest ih => simp [ltAfter, ih]

theorem ltAfter_singleton (lt0 : Option String) (a : ArgsDict) :
    ltAfter lt0 [a] = updLT lt0 a := rfl

theorem computeJobsSpec_append (cfg : Config) (lt0 : Option String)
    (l : List ArgsDict) (a : ArgsDict) :
    computeJobsSpec cfg lt0 (l ++ [a]) =
      computeJobsSpec cfg lt0 l ++
        [mkComputeJob cfg ((updLT (ltAfter lt0 l) a).map basename) a] := by
  induction l generalizing lt0 with
  | nil => rfl
  | cons b rest ih => simp [computeJobsSpec, ltAfter, ih]

theorem ceilDiv_succ {K : Nat} (hK : 0 < K) (m : Nat) :
    ceilDiv (m + 1) K = m / K + 1 := by
  have h : m + 1 + K - 1 = m + K := by omega
  rw [ceilDiv, h, Nat.add_div_right m hK]

theorem ceilDiv_of_dvd {K m : Nat} (hK : 0 < K) (h : K ∣ m) :
    ceilDiv m K = m / K := by
  rcases h with ⟨q, rfl⟩
  rcases Nat.eq_zero_or_pos q with hq | hq
  · subst hq; simp [ceilDiv, Nat.div_eq_of_lt (show K - 1 < K by omega)]
  · have h1 : K * q + K - 1 = K * q + (K - 1) := by omega
    rw [ceilDiv, h1, Nat.mul_add_div hK, Nat.mul_div_cancel_left q hK,
      Nat.div_eq_of_lt (show K - 1 < K by omega)]
    omega

theorem ceilDiv_of_not_dvd {K m : Nat} (hK : 0 < K) (h : ¬ K ∣ m) :
    ceilDiv m K = m / K + 1 := by
  rcases Nat.eq_zero_or_pos m with hm | hm
  · exact absurd (hm ▸ Nat.dvd_zero K) h
  · obtain ⟨m', rfl⟩ : ∃ m', m = m' + 1 := ⟨m - 1, by omega⟩
    rw [ceilDiv_succ hK, Nat.succ_div_of_not_dvd h]

theorem cohortWindow_append_lower {pre : List ArgsDict} {a : ArgsDict}
    {K i : Nat} (h : (i + 1) * K ≤ pre.length) :
    cohortWindow (pre ++ [a]) K i = cohortWindow pre K i := by
  have h1 : i * K ≤ pre.length :=
    le_trans (Nat.mul_le_mul_right K (Nat.le_succ i)) h
  have h2 : K ≤ (pre.drop (i * K)).length := by
    rw [List.length_drop]
    have : (i + 1) * K = i * K + K := by ring
    omega
  unfold cohortWindow
  rw [List.drop_append_of_le_length h1, List.take_append_of_le_length h2]

theorem cohortWindow_append_open {pre : List ArgsDict} {a : ArgsDict}
    {K i : Nat} (hle : i * K ≤ pre.length)
    (hlt : pre.length - i * K < K) :
    cohortWindow (pre ++ [a]) K i = cohortWindow pre K i ++ [a] := by
  unfold cohortWindow
  rw [List.drop_append_of_le_length hle, List.take_append_eq_append_take]
  have hlen : (pre.drop (i * K)).length = pre.length - i * K :=
    List.length_drop ..
  rw [List.take_of_length_le (by omega),
    List.take_of_length_le (by simp; omega)]

theorem combineJobSpec_append_lower (cfg : Config) {pre : List ArgsDict}
    {a : ArgsDict} {i : Nat}
    (h : (i + 1) * cfg.combine_n_outputs ≤ pre.length) :
    combineJobSpec cfg (pre ++ [a]) i = combineJobSpec cfg pre i := by
  unfold combineJobSpec
  rw [cohortWindow_append_lower h]

theorem combineJobSpec_append_open (cfg : Config) {pre : List ArgsDict}
    {a : ArgsDict} {i : Nat}
    (hle : i * cfg.combine_n_outputs ≤ pre.length)
    (hlt : pre.length - i * cfg.combine_n_outputs < cfg.combine_n_outputs) :
    combineJobSpec cfg (pre ++ [a]) i =
      { combineJobSpec cfg pre i with
        inputs := (combineJobSpec cfg pre i).inputs ++ ticketOutputFiles cfg a } := by
  unfold combineJobSpec
  rw [cohortWindow_append_open hle hlt, concatMap_append]
  simp [concatMap]

theorem openCohortStep_eq (cfg : Config) (st : GenState) :
    openCohortStep cfg st =
      { st with combineJobs :=
          if st.new_to_combine then
            st.combineJobs ++ [add_combine_job cfg st.combine_i]
          else st.combineJobs } := by
  cases h : st.new_to_combine with
  | true => simp [openCohortStep, h]
  | false =>
    simp only [openCohortStep, h, Bool.false_eq_true, if_false]
    apply GenState.ext <;> simp [h]

theorem limitThresholdStep_spec (st : GenState) (a : ArgsDict)
    (lt0 : Option String)
    (h1 : st.added_limit_threshold = lt0.isSome)
    (h2 : st.f_limit_threshold = lt0.map basename)
    (h3 : st.limit_threshold = lt0) :
    limitThresholdStep st a =
      { st with
        limit_threshold := updLT lt0 a
        f_limit_threshold := (updLT lt0 a).map basename
        added_limit_threshold := (updLT lt0 a).isSome
        rc := st.rc ++
          newRCEntries lt0 a.statistical_model_args.limit_threshold } := by
  cases lt0 with
  | some v =>
    cases hat : a.statistical_model_args.limit_threshold <;>
      (simp [limitThresholdStep, h1, h2, h3, updLT, hat, newRCEntries]
       apply GenState.ext <;> simp [h1, h2, h3])
  | none =>
    cases hat : a.statistical_model_args.limit_threshold with
    | none =>
      simp [limitThresholdStep, h1, h2, h3, updLT, hat, newRCEntries]
      apply GenState.ext <;> simp [h1, h2, h3]
    | some w =>
      simp [limitThresholdStep, h1, h2, h3, updLT, hat, registerLimitThreshold,
        newRCEntries]

theorem ltRCEntry_updLT (lt0 : Option String) (a : ArgsDict) :
    ltRCEntry lt0 ++ newRCEntries lt0 a.statistical_model_args.limit_threshold =
      ltRCEntry (updLT lt0 a) := by
  cases lt0 <;> cases h : a.statistical_model_args.limit_threshold <;>
    simp [ltRCEntry, newRCEntries, updLT, h]

/-- The combine-job list after one loop iteration, in closed form: the
cohort possibly opened at the start of the iteration absorbs the new
ticket's outputs as inputs of the open (last) combine job. -/
theorem combineJobs_step (cfg : Config) (hK : 0 < cfg.combine_n_outputs)
    (pre : List ArgsDict) (a : ArgsDict) :
    updateLast (fun cj => { cj with inputs := cj.inputs ++ ticketOutputFiles cfg a })
      (if (pre.length % cfg.combine_n_outputs == 0) = true then
        (List.range (ceilDiv pre.length cfg.combine_n_outputs)).map
            (combineJobSpec cfg pre) ++
          [add_combine_job cfg (pre.length / cfg.combine_n_outputs)]
       else
        (List.range (ceilDiv pre.length cfg.combine_n_outputs)).map
          (combineJobSpec cfg pre)) =
      (List.range (ceilDiv (pre ++ [a]).length cfg.combine_n_outputs)).map
        (combineJobSpec cfg (pre ++ [a])) := by
  have hlen : (pre ++ [a]).length = pre.length + 1 := by simp
  by_cases hb1 : pre.length % cfg.combine_n_outputs = 0
  · have hdvd := Nat.dvd_of_mod_eq_zero hb1
    have hmul : (pre.length / cfg.combine_n_outputs) * cfg.combine_n_outputs =
        pre.length := Nat.div_mul_cancel hdvd
    have hwin : cohortWindow (pre ++ [a]) cfg.combine_n_outputs
        (pre.length / cfg.combine_n_outputs) = [a] := by
      unfold cohortWindow
      rw [hmul, List.drop_left' rfl, List.take_of_length_le (by simp; omega)]
    rw [if_pos (by simp [hb1]), updateLast_append, ceilDiv_of_dvd hK hdvd, hlen,
      ceilDiv_succ hK]
    simp only [List.range_succ, List.map_append, List.map_cons, List.map_nil]
    congr 1
    · refine List.map_congr_left fun i hi => ?_
      have hi' : i < pre.length / cfg.combine_n_outputs := List.mem_range.mp hi
      refine (combineJobSpec_append_lower cfg ?_).symm
      calc (i + 1) * cfg.combine_n_outputs
          ≤ (pre.length / cfg.combine_n_outputs) * cfg.combine_n_outputs :=
            Nat.mul_le_mul_right _ hi'
        _ = pre.length := hmul
    · simp [combineJobSpec, hwin, concatMap, add_combine_job, initialize_job]
  · have hndvd : ¬ cfg.combine_n_outputs ∣ pre.length :=
      fun hd => hb1 (Nat.mod_eq_zero_of_dvd hd)
    have hle : (pre.length / cfg.combine_n_outputs) * cfg.combine_n_outputs ≤
        pre.length := Nat.div_mul_le_self ..
    have hlt : pre.length - (pre.length / cfg.combine_n_outputs) *
        cfg.combine_n_outputs < cfg.combine_n_outputs := by
      have h1 := Nat.mod_add_div pre.length cfg.combine_n_outputs
      have h2 : pre.length % cfg.combine_n_outputs < cfg.combine_n_outputs :=
        Nat.mod_lt _ hK
      rw [Nat.mul_comm] at h1
      omega
    rw [if_neg (by simp [hb1]), ceilDiv_of_not_dvd hK hndvd, hlen,
      ceilDiv_succ hK]
    simp only [List.range_succ, List.map_append, List.map_cons, List.map_nil]
    rw [updateLast_append]
    congr 1
    · refine List.map_congr_left fun i hi => ?_
      have hi' : i < pre.length / cfg.combine_n_outputs := List.mem_range.mp hi
      refine (combineJobSpec_append_lower cfg ?_).symm
      calc (i + 1) * cfg.combine_n_outputs
          ≤ (pre.length / cfg.combine_n_outputs) * cfg.combine_n_outputs :=
            Nat.mul_le_mul_right _ hi'
        _ ≤ pre.length := hle
    · rw [combineJobSpec_append_open cfg hle hlt]

/-- One loop iteration takes the closed-form state for `pre` to the
closed-form state for `pre ++ [a]`, for a ticket of supported mode. -/
theorem processTicket_spec (cfg : Config) (hK : 0 < cfg.combine_n_outputs)
    (pre : List ArgsDict) (a : ArgsDict) (hv : valid_toydata_mode a = true) :
    processTicket cfg pre.length (specMid cfg pre) a =
      (specMid cfg (pre ++ [a]), none) := by
  have hvc : (!valid_toydata_mode (correct_paths_args_dict cfg a)) = false := by
    have h : valid_toydata_mode (correct_paths_args_dict cfg a) =
        valid_toydata_mode a := rfl
    rw [h, hv]; rfl
  have hopen := openCohortStep_eq cfg (specMid cfg pre)
  have hlim := limitThresholdStep_spec (openCohortStep cfg (specMid cfg pre)) a
    (ltAfter none pre) (by rw [hopen]; rfl) (by rw [hopen]; rfl)
    (by rw [hopen]; rfl)
  have hcompute :
      computeJobsSpec cfg none pre ++
          [mkComputeJob cfg (Option.map basename (updLT (ltAfter none pre) a)) a] =
        computeJobsSpec cfg none (pre ++ [a]) :=
    (computeJobsSpec_append cfg none pre a).symm
  have hrc :
      (generate_rc cfg ++ ltRCEntry (ltAfter none pre)) ++
          newRCEntries (ltAfter none pre) a.statistical_model_args.limit_threshold =
        generate_rc cfg ++ ltRCEntry (ltAfter none (pre ++ [a])) := by
    rw [List.append_assoc, ltRCEntry_updLT, ltAfter_append, ltAfter_singleton]
  have hcombine := combineJobs_step cfg hK pre a
  unfold processTicket
  simp only [hvc, Bool.false_eq_true, if_false, Prod.mk.injEq]
  rw [hlim, hopen]
  refine ⟨?_, trivial⟩
  simp only [computeJobStep, counterStep]
  have hupd : ltAfter none (pre ++ [a]) = updLT (ltAfter none pre) a := by
    rw [ltAfter_append, ltAfter_singleton]
  by_cases hb2 : (pre.length + 1) % cfg.combine_n_outputs = 0
  · rw [if_pos (by simp [hb2])]
    apply GenState.ext
    · exact hcompute
    · exact hcombine
    · exact hrc
    · rfl
    · rfl
    · rfl
    · show (updLT (ltAfter none pre) a).isSome =
        (ltAfter none (pre ++ [a])).isSome
      rw [hupd]
    · show Option.map basename (updLT (ltAfter none pre) a) =
        Option.map basename (ltAfter none (pre ++ [a]))
      rw [hupd]
    · show updLT (ltAfter none pre) a = ltAfter none (pre ++ [a])
      rw [hupd]
    · show pre.length / cfg.combine_n_outputs + 1 =
        (pre ++ [a]).length / cfg.combine_n_outputs
      have h := Nat.succ_div_of_dvd (Nat.dvd_of_mod_eq_zero hb2)
      have hlen2 : (pre ++ [a]).length = pre.length + 1 := by simp
      rw [hlen2, h]
    · show true = ((pre ++ [a]).length % cfg.combine_n_outputs == 0)
      simp [hb2]
    · rfl
  · rw [if_neg (by simp [hb2])]
    apply GenState.ext
    · exact hcompute
    · exact hcombine
    · exact hrc
    · rfl
    · rfl
    · rfl
    · show (updLT (ltAfter none pre) a).isSome =
        (ltAfter none (pre ++ [a])).isSome
      rw [hupd]
    · show Option.map basename (updLT (ltAfter none pre) a) =
        Option.map basename (ltAfter none (pre ++ [a]))
      rw [hupd]
    · show updLT (ltAfter none pre) a = ltAfter none (pre ++ [a])
      rw [hupd]
    · show pre.length / cfg.combine_n_outputs =
        (pre ++ [a]).length / cfg.combine_n_outputs
      have h := Nat.succ_div_of_not_dvd
        (fun hd => hb2 (Nat.mod_eq_zero_of_dvd hd))
      have hlen2 : (pre ++ [a]).length = pre.length + 1 := by simp
      rw [hlen2, h]
    · show false = ((pre ++ [a]).length % cfg.combine_n_outputs == 0)
      simp [hb2]
    · rfl

/-- Folding the loop over a remaining ticket list of supported modes,
starting from the closed-form state of the already-processed prefix. -/
theorem genJobs_spec (cfg : Config) (hK : 0 < cfg.combine_n_outputs) :
    ∀ (ts pre : List ArgsDict),
      (∀ a ∈ ts, valid_toydata_mode a = true) →
      genJobs cfg pre.length (specMid cfg pre) ts =
        (specMid cfg (pre ++ ts), none) := by
  intro ts
  induction ts with
  | nil => intro pre _; simp [genJobs]
  | cons a rest ih =>
    intro pre hv
    have hva : valid_toydata_mode a = true := hv a (by simp)
    have hstep := processTicket_spec cfg hK pre a hva
    have hlen : pre.length + 1 = (pre ++ [a]).length := by simp
    have htail := ih (pre ++ [a]) (fun b hb => hv b (by simp [hb]))
    simp only [genJobs, hstep, hlen, htail, List.append_assoc, List.cons_append,
      List.nil_append]

/-- The state reached by `_generate_workflow` just after constructing the
three catalogs is the closed-form state of the empty prefix. -/
theorem specMid_nil (cfg : Config) (hK : 0 < cfg.combine_n_outputs) :
    ({ initGenState with
        scBuilt := true, tcBuilt := true, rcBuilt := true,
        rc := generate_rc cfg } : GenState) = specMid cfg [] := by
  have hdiv : (cfg.combine_n_outputs - 1) / cfg.combine_n_outputs = 0 :=
    Nat.div_eq_of_lt (by omega)
  apply GenState.ext <;>
    simp [initGenState, specMid, computeJobsSpec, ltAfter, ltRCEntry, ceilDiv,
      hdiv]

/-- Closed form of a full successful workflow generation: with the
combine-jobs precondition satisfied and every ticket of supported mode,
the generated workflow is the closed-form state of the whole ticket list,
with the workflow file written. -/
theorem generate_workflow_spec (cfg : Config) (tickets : List ArgsDict)
    (h1 : cfg.combine_n_jobs = 1) (hK : 0 < cfg.combine_n_outputs)
    (hv : ∀ a ∈ tickets, valid_toydata_mode a = true) :
    generate_workflow cfg tickets =
      ({ specMid cfg tickets with wfWritten := true }, none) := by
  have hrun := genJobs_spec cfg hK tickets [] hv
  simp only [List.length_nil, List.nil_append] at hrun
  unfold generate_workflow
  rw [if_neg (by simp [h1])]
  dsimp only
  rw [specMid_nil cfg hK, hrun]

/-! ### Projections of the closed form -/

theorem computeJobsSpec_length (cfg : Config) :
    ∀ (l : List ArgsDict) (lt0 : Option String),
      (computeJobsSpec cfg lt0 l).length = l.length := by
  intro l
  induction l with
  | nil => intro lt0; rfl
  | cons a rest ih => intro lt0; simp [computeJobsSpec, ih]

theorem computeJobsSpec_get (cfg : Config) :
    ∀ (l : List ArgsDict) (lt0 : Option String) (j : Nat)
      (h : j < (computeJobsSpec cfg lt0 l).length) (h2 : j < l.length),
      (computeJobsSpec cfg lt0 l).get ⟨j, h⟩ =
        mkComputeJob cfg ((ltAfter lt0 (l.take (j + 1))).map basename)
          (l.get ⟨j, h2⟩) := by
  intro l
  induction l with
  | nil => intro lt0 j h h2; simp at h2
  | cons a rest ih =>
    intro lt0 j h h2
    cases j with
    | zero => simp [computeJobsSpec, ltAfter]
    | succ n =>
      have h' : n < (computeJobsSpec cfg (updLT lt0 a) rest).length := by
        rw [computeJobsSpec_length]
        simpa using h2
      have h2' : n < rest.length := by simpa using h2
      simp only [computeJobsSpec, List.get_cons_succ, List.take_succ_cons,
        ltAfter]
      exact ih (updLT lt0 a) n h' h2'

theorem mkComputeJob_outputs (cfg : Config) (ltFile : Option String)
    (a : ArgsDict) :
    (mkComputeJob cfg ltFile a).outputs.map Prod.fst =
      ticketOutputFiles cfg a := by
  by_cases h : (correct_paths_args_dict cfg a).toydata_mode =
      "generate_and_store" <;>
    simp [mkComputeJob, ticketOutputFiles, h]

theorem mkComputeJob_inputs_some (cfg : Config) (f : String) (a : ArgsDict) :
    (mkComputeJob cfg (some f) a).inputs = standardInputs cfg ++ [f] := rfl

theorem mkComputeJob_inputs_none (cfg : Config) (a : ArgsDict) :
    (mkComputeJob cfg none a).inputs = standardInputs cfg := by
  simp [mkComputeJob]

theorem get_map_range {α : Type} {f : Nat → α} {q i : Nat}
    (h : i < ((List.range q).map f).length) :
    ((List.range q).map f).get ⟨i, h⟩ = f i := by
  simp

/-! ### Limit-threshold registration facts -/

theorem ltAfter_isSome_iff (l : List ArgsDict) :
    (ltAfter none l).isSome = true ↔
      ∃ a ∈ l, a.statistical_model_args.limit_threshold.isSome = true := by
  induction l with
  | nil => simp [ltAfter]
  | cons a rest ih =>
    cases hat : a.statistical_model_args.limit_threshold with
    | some v => simp [ltAfter, updLT, hat, ltAfter_some]
    | none => simp [ltAfter, updLT, hat, ih]

theorem ltAfter_stable (l₁ l₂ : List ArgsDict) (v : String)
    (h : ltAfter none l₁ = some v) :
    ltAfter none (l₁ ++ l₂) = some v := by
  rw [ltAfter_append, h, ltAfter_some]

/-! ## Claims about workflow generation -/

/-- C1: with the combine-jobs precondition satisfied, a positive cohort
capacity, and every ticket of supported toydata mode, workflow generation
produces exactly `ceil(N / K)` combine jobs whose inputs are the outputs
of the compute jobs at the purely positional windows `[i*K, (i+1)*K)` of
the ticket sequence. -/
theorem c1_cohort_structure (cfg : Config) (tickets : List ArgsDict)
    (h1 : cfg.combine_n_jobs = 1) (hK : 0 < cfg.combine_n_outputs)
    (hv : ∀ a ∈ tickets, valid_toydata_mode a = true) :
    cohortStructure cfg tickets := by
  have hgw := generate_workflow_spec cfg tickets h1 hK hv
  unfold cohortStructure
  rw [hgw]
  dsimp only [specMid]
  refine ⟨rfl, computeJobsSpec_length cfg tickets none, by simp, ?_, ?_⟩
  · intro i hi
    simp only [List.length_map, List.length_range] at hi
    have hi' : i <
        ((List.range (ceilDiv tickets.length cfg.combine_n_outputs)).map
          (combineJobSpec cfg tickets)).length := by simp [hi]
    rw [List.getElem?_eq_getElem hi']
    simp [combineJobSpec, cohortWindow]
  · intro j hj
    have hj' : j < (computeJobsSpec cfg none tickets).length := by
      rw [computeJobsSpec_length]; exact hj
    have hg := computeJobsSpec_get cfg tickets none j hj' hj
    simp only [List.get_eq_getElem] at hg
    rw [List.getElem?_eq_getElem hj', List.getElem?_eq_getElem hj, hg]
    simp [mkComputeJob_outputs]

/-- C5: within one workflow build the limit-threshold file is registered
at most once: the final replica catalog is the six base entries plus the
entry of the first registered limit threshold, which is a single entry
exactly when some ticket references a limit threshold, however many
tickets do. -/
theorem c5_limit_threshold_once (cfg : Config) (tickets : List ArgsDict)
    (h1 : cfg.combine_n_jobs = 1) (hK : 0 < cfg.combine_n_outputs)
    (hv : ∀ a ∈ tickets, valid_toydata_mode a = true) :
    (generate_workflow cfg tickets).1.rc =
      generate_rc cfg ++ ltRCEntry (ltAfter none tickets) ∧
    (ltRCEntry (ltAfter none tickets)).length ≤ 1 ∧
    ((∃ a ∈ tickets,
        a.statistical_model_args.limit_threshold.isSome = true) →
      (ltRCEntry (ltAfter none tickets)).length = 1) := by
  have hgw := generate_workflow_spec cfg tickets h1 hK hv
  refine ⟨by rw [hgw]; rfl, ?_, ?_⟩
  · cases h : ltAfter none tickets <;> simp [ltRCEntry]
  · intro hex
    have hsome : (ltAfter none tickets).isSome = true :=
      (ltAfter_isSome_iff tickets).mpr hex
    cases h : ltAfter none tickets with
    | none => rw [h] at hsome; simp at hsome
    | some v => simp [ltRCEntry]

/-- C6: any `combine_n_jobs` other than 1 makes workflow generation fail
immediately with a configuration error, in the entry state: no catalog
constructed, no job built, an empty replica catalog. -/
theorem c6_combine_n_jobs_precondition (cfg : Config)
    (tickets : List ArgsDict) (h : cfg.combine_n_jobs ≠ 1) :
    generate_workflow cfg tickets =
      (initGenState,
        some ("SubmitterHTCondor can not combine jobs but can only combine outputs so please set " ++
          toString cfg.combine_n_jobs ++ " to 1.")) ∧
    initGenState.scBuilt = false ∧ initGenState.tcBuilt = false ∧
    initGenState.rcBuilt = false ∧ initGenState.computeJobs = [] ∧
    initGenState.combineJobs = [] ∧ initGenState.rc = [] := by
  refine ⟨?_, rfl, rfl, rfl, rfl, rfl, rfl⟩
  unfold generate_workflow
  rw [if_pos (by simp [h])]

/-! ## The abort path for unsupported toydata modes -/

theorem openCohortStep_computeJobs (cfg : Config) (st : GenState) :
    (openCohortStep cfg st).computeJobs = st.computeJobs := by
  unfold openCohortStep; split <;> rfl

theorem limitThresholdStep_computeJobs (st : GenState) (a : ArgsDict) :
    (limitThresholdStep st a).computeJobs = st.computeJobs := by
  unfold limitThresholdStep
  split
  · split <;> rfl
  · rfl

theorem limitThresholdStep_combineJobs (st : GenState) (a : ArgsDict) :
    (limitThresholdStep st a).combineJobs = st.combineJobs := by
  unfold limitThresholdStep
  split
  · split <;> rfl
  · rfl

/-- Processing a ticket of unsupported mode from the closed-form state:
the iteration errors out after possibly opening a cohort (so at least one
combine job is in the graph) and before building the ticket's compute job
(so the compute jobs are exactly those of the preceding tickets). -/
theorem processTicket_error (cfg : Config) (hK : 0 < cfg.combine_n_outputs)
    (pre : List ArgsDict) (a : ArgsDict)
    (hbad : valid_toydata_mode a = false) :
    (processTicket cfg pre.length (specMid cfg pre) a).2.isSome = true ∧
    (processTicket cfg pre.length (specMid cfg pre) a).1.computeJobs =
      computeJobsSpec cfg none pre ∧
    1 ≤ (processTicket cfg pre.length (specMid cfg pre) a).1.combineJobs.length := by
  have hvc : (!valid_toydata_mode (correct_paths_args_dict cfg a)) = true := by
    have h : valid_toydata_mode (correct_paths_args_dict cfg a) =
        valid_toydata_mode a := rfl
    rw [h, hbad]; rfl
  unfold processTicket
  simp only [hvc]
  rw [if_pos trivial]
  refine ⟨rfl, ?_, ?_⟩
  · rw [limitThresholdStep_computeJobs, openCohortStep_computeJobs]
    rfl
  · rw [limitThresholdStep_combineJobs, openCohortStep_eq]
    dsimp only
    by_cases hb1 : pre.length % cfg.combine_n_outputs = 0
    · rw [if_pos (by simp [specMid, hb1])]
      simp
    · rw [if_neg (by simp [specMid, hb1])]
      show 1 ≤ ((List.range (ceilDiv pre.length cfg.combine_n_outputs)).map
        (combineJobSpec cfg pre)).length
      rw [List.length_map, List.length_range,
        ceilDiv_of_not_dvd hK (fun hd => hb1 (Nat.mod_eq_zero_of_dvd hd))]
      exact Nat.succ_le_succ (Nat.zero_le _)

/-- Folding the loop over a prefix of supported tickets, leaving the
remaining tickets to continue from the prefix's closed-form state. -/
theorem genJobs_prefix (cfg : Config) (hK : 0 < cfg.combine_n_outputs) :
    ∀ (l₁ l₂ pre : List ArgsDict),
      (∀ a ∈ l₁, valid_toydata_mode a = true) →
      genJobs cfg pre.length (specMid cfg pre) (l₁ ++ l₂) =
        genJobs cfg (pre ++ l₁).length (specMid cfg (pre ++ l₁)) l₂ := by
  intro l₁
  induction l₁ with
  | nil => intro l₂ pre _; simp
  | cons a rest ih =>
    intro l₂ pre hv
    have hva := hv a (by simp)
    have hstep := processTicket_spec cfg hK pre a hva
    have hlen : pre.length + 1 = (pre ++ [a]).length := by simp
    have htail := ih l₂ (pre ++ [a]) (fun b hb => hv b (by simp [hb]))
    calc genJobs cfg pre.length (specMid cfg pre) ((a :: rest) ++ l₂)
        = genJobs cfg (pre.length + 1) (specMid cfg (pre ++ [a]))
            (rest ++ l₂) := by
          rw [List.cons_append]; simp only [genJobs, hstep]
      _ = genJobs cfg ((pre ++ [a]) ++ rest).length
            (specMid cfg ((pre ++ [a]) ++ rest)) l₂ := by
          rw [hlen]; exact htail
      _ = genJobs cfg (pre ++ a :: rest).length
            (specMid cfg (pre ++ a :: rest)) l₂ := by
          rw [List.append_assoc, List.singleton_append]

/-- C3 (amended): when the first ticket of unsupported toydata mode sits
at position `k` (all earlier tickets supported), workflow generation
aborts with an error raised before that ticket's compute job is built —
the graph holds exactly the `k` compute jobs of the preceding tickets —
but the graph is not left empty: it already contains at least one combine
job, added before the mode check. -/
theorem c3_unsupported_mode_abort (cfg : Config) (tickets : List ArgsDict)
    (k : Nat) (h1 : cfg.combine_n_jobs = 1)
    (hK : 0 < cfg.combine_n_outputs) (hk : k < tickets.length)
    (hv : ∀ a ∈ tickets.take k, valid_toydata_mode a = true)
    (hbad : valid_toydata_mode (tickets.get ⟨k, hk⟩) = false) :
    (generate_workflow cfg tickets).2.isSome = true ∧
    (generate_workflow cfg tickets).1.computeJobs.length = k ∧
    1 ≤ (generate_workflow cfg tickets).1.combineJobs.length := by
  have hsplit : tickets = tickets.take k ++
      (tickets.get ⟨k, hk⟩ :: tickets.drop (k + 1)) := by
    conv_lhs => rw [← List.take_append_drop k tickets]
    congr 1
    rw [List.drop_eq_getElem_cons hk]
    simp [List.get_eq_getElem]
  have hlen : (tickets.take k).length = k := by
    rw [List.length_take]; omega
  have hpre := genJobs_prefix cfg hK (tickets.take k)
    (tickets.get ⟨k, hk⟩ :: tickets.drop (k + 1)) [] hv
  simp only [List.length_nil, List.nil_append] at hpre
  have herr := processTicket_error cfg hK (tickets.take k)
    (tickets.get ⟨k, hk⟩) hbad
  obtain ⟨e, he⟩ := Option.isSome_iff_exists.mp herr.1
  obtain ⟨st', hst⟩ : ∃ st',
      processTicket cfg (tickets.take k).length
        (specMid cfg (tickets.take k)) (tickets.get ⟨k, hk⟩) =
        (st', some e) :=
    ⟨(processTicket cfg (tickets.take k).length
        (specMid cfg (tickets.take k)) (tickets.get ⟨k, hk⟩)).1,
      by rw [← he]⟩
  have hcj : st'.computeJobs = computeJobsSpec cfg none (tickets.take k) := by
    have h2 := herr.2.1
    rw [hst] at h2
    exact h2
  have hcb : 1 ≤ st'.combineJobs.length := by
    have h2 := herr.2.2
    rw [hst] at h2
    exact h2
  have hfold : genJobs cfg 0 (specMid cfg []) tickets = (st', some e) := by
    conv_lhs => rw [hsplit]
    rw [hpre]
    simp only [genJobs, hst]
  have hgw : generate_workflow cfg tickets = (st', some e) := by
    unfold generate_workflow
    rw [if_neg (by simp [h1])]
    dsimp only
    rw [specMid_nil cfg hK, hfold]
  refine ⟨?_, ?_, ?_⟩
  · rw [hgw]; rfl
  · rw [hgw]
    show st'.computeJobs.length = k
    rw [hcj, computeJobsSpec_length, hlen]
  · rw [hgw]
    exact hcb

/-! ## Claim C10: propagation of the registered limit threshold -/

theorem ltAfter_none_of_all (l : List ArgsDict)
    (h : ∀ a ∈ l, a.statistical_model_args.limit_threshold.isSome = false) :
    ltAfter none l = none := by
  induction l with
  | nil => rfl
  | cons a rest ih =>
    have ha := h a (by simp)
    have hnone : a.statistical_model_args.limit_threshold = none := by
      cases hat : a.statistical_model_args.limit_threshold with
      | none => rfl
      | some v => rw [hat] at ha; simp at ha
    simp only [ltAfter, updLT, hnone]
    exact ih (fun b hb => h b (by simp [hb]))

/-- C10: in a successful workflow build, limit-threshold inputs propagate
positionally: every compute job after the first triggering ticket binds
the registered file, and no compute job before the trigger does. -/
theorem c10_limit_threshold_propagation (cfg : Config)
    (tickets : List ArgsDict) (h1 : cfg.combine_n_jobs = 1)
    (hK : 0 < cfg.combine_n_outputs)
    (hv : ∀ a ∈ tickets, valid_toydata_mode a = true) :
    limitThresholdPropagation cfg tickets := by
  have hgw := generate_workflow_spec cfg tickets h1 hK hv
  have hcj : (generate_workflow cfg tickets).1.computeJobs =
      computeJobsSpec cfg none tickets := by rw [hgw]; rfl
  refine ⟨?_, ?_, ?_⟩
  · rw [hcj]
    exact computeJobsSpec_length cfg tickets none
  · intro i j hij hjlen htrig
    have hilen : i < tickets.length := lt_trans hij hjlen
    rw [List.getElem?_eq_getElem hilen] at htrig
    have htrig' : tickets[i].statistical_model_args.limit_threshold.isSome =
        true := by
      have := Option.some.inj htrig
      exact this
    have hjlen' : j < (computeJobsSpec cfg none tickets).length := by
      rw [computeJobsSpec_length]; exact hjlen
    have hg := computeJobsSpec_get cfg tickets none j hjlen' hjlen
    simp only [List.get_eq_getElem] at hg
    have hi2 : i < (tickets.take (j + 1)).length := by
      rw [List.length_take]; omega
    have hsome : (ltAfter none (tickets.take (j + 1))).isSome = true := by
      rw [ltAfter_isSome_iff]
      refine ⟨(tickets.take (j + 1)).get ⟨i, hi2⟩, List.get_mem _ _ _, ?_⟩
      have htk : (tickets.take (j + 1)).get ⟨i, hi2⟩ = tickets[i] := by
        simp [List.get_eq_getElem]
      rw [htk]
      exact htrig'
    obtain ⟨v, hveq⟩ := Option.isSome_iff_exists.mp hsome
    refine ⟨v, ?_, ?_⟩
    · have hst := ltAfter_stable (tickets.take (j + 1))
        (tickets.drop (j + 1)) v hveq
      rwa [List.take_append_drop] at hst
    · rw [hcj, List.getElem?_eq_getElem hjlen', hg]
      simp [hveq, mkComputeJob_inputs_some]
  · intro j hjlen hnone
    have hjlen' : j < (computeJobsSpec cfg none tickets).length := by
      rw [computeJobsSpec_length]; exact hjlen
    have hg := computeJobsSpec_get cfg tickets none j hjlen' hjlen
    simp only [List.get_eq_getElem] at hg
    have hallnone : ∀ a ∈ tickets.take (j + 1),
        a.statistical_model_args.limit_threshold.isSome = false := by
      intro a ha
      obtain ⟨n, hn, hna⟩ := List.mem_take_iff_getElem.mp ha
      have hnj : n ≤ j := by omega
      have hnlen : n < tickets.length := by omega
      have h2 := hnone n hnj
      rw [List.getElem?_eq_getElem hnlen] at h2
      rw [← hna]
      simpa using h2
    have hzero : ltAfter none (tickets.take (j + 1)) = none :=
      ltAfter_none_of_all _ hallnone
    rw [hcj, List.getElem?_eq_getElem hjlen', hg]
    simp [hzero, mkComputeJob_inputs_none]

/-! ## Claims C7 and C8: pre-flight checks of submit -/

theorem dedup_length_eq_iff (l : List String) :
    l.dedup.length = l.length ↔ l.Nodup := by
  constructor
  · intro h
    have hsub := List.dedup_sublist l
    have heq := List.Sublist.eq_of_length hsub h
    rw [← heq]
    exact List.nodup_dedup l
  · intro h
    rw [List.dedup_eq_self.mpr h]

/-- C7: two files with the same base filename anywhere in the template
directory tree (in particular in two different subdirectories) make
`submit` abort with an error before the template tarball is created: the
uniqueness check compares base filenames across the whole walk. -/
theorem c7_filename_uniqueness (cfg : Config) (env : SubmitEnv)
    (d1 d2 n : String)
    (h1 : env.runs_dir_exists = false) (h2 : env.x509_ok = true)
    (h3 : env.template_path_exists = true)
    (hm1 : (d1, n) ∈ env.template_files)
    (hm2 : (d2, n) ∈ env.template_files) (hd : d1 ≠ d2) :
    (submit cfg env).2.isSome = true ∧
    SubmitEvent.madeTemplateTarball ∉ (submit cfg env).1 := by
  have hnodup : ¬ (env.template_files.map Prod.snd).Nodup := by
    intro hnd
    have heq := List.inj_on_of_nodup_map hnd hm1 hm2 rfl
    exact hd (congrArg Prod.fst heq)
  have hcol : filenameCollision env.template_files = true := by
    unfold filenameCollision
    simp only [bne_iff_ne, ne_eq]
    intro hh
    exact hnodup ((dedup_length_eq_iff _).mp hh.symm)
  unfold submit
  rw [if_neg (by simp [h1]), if_neg (by simp [h2]), if_neg (by simp [h3]),
    if_pos hcol]
  exact ⟨rfl, by decide⟩

/-- C8: if the run directory for the workflow id already exists, `submit`
fails as its very first check, with nothing done: no proxy validation, no
directory creation, no yaml rewrite, no workflow generation. -/
theorem c8_existing_run_dir (cfg : Config) (env : SubmitEnv)
    (h : env.runs_dir_exists = true) :
    submit cfg env =
      ([], some ("Workflow already exists at " ++ runsDir cfg ++
        ". Exiting.")) := by
  unfold submit
  rw [if_pos (by simp [h])]

/-! ## Claims C2, C4, C9 -/

/-- C2 counterexample: on a concrete ticket whose
`statistical_model_config` is `/home/user/conf.yaml`, the rewritten value
is `conf_modified.yaml`, not the base filename `conf.yaml` of the input
mapping's value, refuting the claim as stated. -/
theorem c2_counterexample :
    (correct_paths_args_dict cfgEx ticketA).statistical_model_config ≠
      basename ticketA.statistical_model_config := by decide

/-- C2 (amended): the rewritten mapping has `template_path` replaced by
the fixed relative directory `"templates/"`, `limit_threshold` (when
present), `toydata_filename` and `output_filename` reduced to base
filenames of the input mapping's values, and `statistical_model_config`
set to the base filename of the submitter's modified statistical model
config (the original config's base name with `".yaml"` replaced by
`"_modified.yaml"`) — not of the input mapping's value — with every other
field unchanged. -/
theorem c2_rewritten_arguments (cfg : Config) (a : ArgsDict) :
    correct_paths_args_dict cfg a =
      { toydata_mode := a.toydata_mode
        toydata_filename := basename a.toydata_filename
        output_filename := basename a.output_filename
        statistical_model_config := basename (modifiedStatisticalModelConfig cfg)
        statistical_model_args :=
          { template_path := "templates/"
            limit_threshold := a.statistical_model_args.limit_threshold.map basename
            other := a.statistical_model_args.other }
        other := a.other } := rfl

/-- Monotonicity of the retry-escalating request expression in the
attempt counter. -/
theorem dagRetryRequest_mono (base : Nat) :
    ∀ a b : Nat, a ≤ b → dagRetryRequest base a ≤ dagRetryRequest base b := by
  intro a b hab
  unfold dagRetryRequest
  rcases Nat.eq_zero_or_pos a with ha | ha
  · subst ha
    rcases Nat.eq_zero_or_pos b with hb | hb
    · subst hb; simp
    · simp only [if_pos rfl, if_neg (Nat.pos_iff_ne_zero.mp hb)]
      calc base = 1 * base := (Nat.one_mul base).symm
        _ ≤ (b + 1) * base := Nat.mul_le_mul_right base (Nat.succ_le_succ (Nat.zero_le b))
  · rw [if_neg (Nat.pos_iff_ne_zero.mp ha),
        if_neg (Nat.pos_iff_ne_zero.mp (Nat.lt_of_lt_of_le ha hab))]
    exact Nat.mul_le_mul_right base (Nat.succ_le_succ hab)

/-- C4: a job initialized off the submit host records the configured base
memory and disk, and the attached retry-escalating request expression
satisfies `request 0 = base`, `request a = (a + 1) * base` for `a ≥ 1`
(so `request 2 = 3 * base`), and is monotonically non-decreasing in the
attempt counter. -/
theorem c4_retry_escalation (name : String) (cores memory disk : Nat) :
    (initialize_job name false cores memory disk).memoryBase = some memory ∧
    (initialize_job name false cores memory disk).diskBase = some disk ∧
    dagRetryRequest memory 0 = memory ∧
    dagRetryRequest disk 0 = disk ∧
    (∀ attempt : Nat, 1 ≤ attempt →
      dagRetryRequest memory attempt = (attempt + 1) * memory ∧
      dagRetryRequest disk attempt = (attempt + 1) * disk) ∧
    dagRetryRequest memory 2 = 3 * memory ∧
    dagRetryRequest disk 2 = 3 * disk ∧
    (∀ a b : Nat, a ≤ b → dagRetryRequest memory a ≤ dagRetryRequest memory b) ∧
    (∀ a b : Nat, a ≤ b → dagRetryRequest disk a ≤ dagRetryRequest disk b) := by
  refine ⟨rfl, rfl, rfl, rfl, ?_, rfl, rfl, dagRetryRequest_mono memory,
    dagRetryRequest_mono disk⟩
  intro attempt h
  have hne : attempt ≠ 0 := Nat.pos_iff_ne_zero.mp h
  constructor <;> simp [dagRetryRequest, hne]

/-- C4 witness: at attempt 2 with base 2000, the request is 3 × 2000. -/
theorem c4_retry_escalation_witness :
    1 ≤ 2 ∧ dagRetryRequest 2000 2 = (2 + 1) * 2000 :=
  ⟨by decide,
    ((c4_retry_escalation "run_toymc_wrapper" 1 2000 2000000).2.2.2.2.1 2
      (by decide)).1⟩

/-- C9: a job initialized with `run_on_submit_node = true` carries only
its name, the core-count profile, and the pin to the local site: no
memory request, no disk request, no requirements predicate, and no
input/output bindings. -/
theorem c9_submit_node_job (name : String) (cores memory disk : Nat) :
    (initialize_job name true cores memory disk).name = name ∧
    (initialize_job name true cores memory disk).cores = cores ∧
    (initialize_job name true cores memory disk).pinnedLocal = true ∧
    (initialize_job name true cores memory disk).memoryBase = none ∧
    (initialize_job name true cores memory disk).diskBase = none ∧
    (initialize_job name true cores memory disk).requirements = none ∧
    (initialize_job name true cores memory disk).inputs = [] ∧
    (initialize_job name true cores memory disk).outputs = [] :=
  ⟨rfl, rfl, rfl, rfl, rfl, rfl, rfl, rfl⟩

/-! ## Concrete witnesses and counterexamples -/

/-- C1 witness: three tickets with cohort capacity 2 instantiate the
cohort-structure conclusion. -/
theorem c1_cohort_structure_witness :
    cohortStructure cfgEx [ticketA, ticketB, ticketC] :=
  c1_cohort_structure cfgEx [ticketA, ticketB, ticketC] rfl (by decide)
    (by decide)

/-- C3 counterexample: a single ticket of unsupported mode makes the
build abort, yet the workflow graph already holds one (combine) job, so
the abort does not leave the graph empty. -/
theorem c3_counterexample :
    (generate_workflow cfgEx [ticketBad]).2.isSome = true ∧
    (generate_workflow cfgEx [ticketBad]).1.combineJobs.length = 1 := by
  decide

/-- C3 witness: with the bad ticket at position 1, the abort leaves
exactly the one preceding compute job and the opened combine job. -/
theorem c3_unsupported_mode_abort_witness :
    (generate_workflow cfgEx [ticketA, ticketBad]).2.isSome = true ∧
    (generate_workflow cfgEx [ticketA, ticketBad]).1.computeJobs.length = 1 ∧
    1 ≤ (generate_workflow cfgEx [ticketA, ticketBad]).1.combineJobs.length :=
  c3_unsupported_mode_abort cfgEx [ticketA, ticketBad] 1 rfl (by decide)
    (by decide) (by decide) (by decide)

/-- C5 witness: two tickets both referencing limit thresholds leave
exactly one limit-threshold replica entry. -/
theorem c5_limit_threshold_once_witness :
    (generate_workflow cfgEx [ticketB, ticketB2]).1.rc =
      generate_rc cfgEx ++ ltRCEntry (ltAfter none [ticketB, ticketB2]) ∧
    (ltRCEntry (ltAfter none [ticketB, ticketB2])).length ≤ 1 ∧
    ((∃ a ∈ [ticketB, ticketB2],
        a.statistical_model_args.limit_threshold.isSome = true) →
      (ltRCEntry (ltAfter none [ticketB, ticketB2])).length = 1) :=
  c5_limit_threshold_once cfgEx [ticketB, ticketB2] rfl (by decide) (by decide)

/-- C6 witness: `combine_n_jobs = 2` aborts generation in the entry
state. -/
theorem c6_combine_n_jobs_precondition_witness :
    generate_workflow cfg6 [ticketA] =
      (initGenState,
        some ("SubmitterHTCondor can not combine jobs but can only combine outputs so please set " ++
          toString cfg6.combine_n_jobs ++ " to 1.")) ∧
    initGenState.scBuilt = false ∧ initGenState.tcBuilt = false ∧
    initGenState.rcBuilt = false ∧ initGenState.computeJobs = [] ∧
    initGenState.combineJobs = [] ∧ initGenState.rc = [] :=
  c6_combine_n_jobs_precondition cfg6 [ticketA] (by decide)

/-- C7 witness: the colliding template files abort submission before the
tarball step. -/
theorem c7_filename_uniqueness_witness :
    (submit cfgEx envC7).2.isSome = true ∧
    SubmitEvent.madeTemplateTarball ∉ (submit cfgEx envC7).1 :=
  c7_filename_uniqueness cfgEx envC7 "/tmp/templates/sub1"
    "/tmp/templates/sub2" "x.h5" rfl rfl rfl (by decide) (by decide)
    (by decide)

/-- C8 witness: an existing run directory fails submission immediately
with nothing done. -/
theorem c8_existing_run_dir_witness :
    submit cfgEx envC8 =
      ([], some ("Workflow already exists at " ++ runsDir cfgEx ++
        ". Exiting.")) :=
  c8_existing_run_dir cfgEx envC8 rfl

/-- C10 witness: with the trigger at position 1 of three tickets, the
propagation conclusion holds. -/
theorem c10_limit_threshold_propagation_witness :
    limitThresholdPropagation cfgEx [ticketA, ticketB, ticketC] :=
  c10_limit_threshold_propagation cfgEx [ticketA, ticketB, ticketC] rfl
    (by decide) (by decide)

end AleaHTCondor
